import Mathlib

/-!
Verification development for the MIA symbolic-roadmap pipeline.

Shallow embedding of the two logic-bearing source files:

* `mia_symbolic_orchestrator.py` — prompt builder (`generate_prompt`),
  scraping wrapper (`scrape_url`), the two text extractors
  (`estrai_simboli_concetti`, `estrai_domande_aperte`), the per-cycle
  merge (`ciclo_symbolic`, lines 113-114) and the `__main__` outer loop
  (lines 121-129);
* `mia_symbolic_generator.py` — `SymbolicGenerator.update_roadmap`.

Modelling conventions:

* Text is modelled as ASCII: Python's Unicode-aware `\w`, `\s` and
  `str.strip()` coincide with the ASCII versions on every string the
  program manipulates here.
* The three `re.findall` pattern families of `estrai_simboli_concetti`
  and the two of `estrai_domande_aperte` are implemented as direct
  left-to-right scanners reproducing the Python `re` semantics of the
  concrete patterns (greedy quantifiers with backtracking against the
  trailing `\b`, lazy `+?` for the labelled block, non-overlapping
  matches resuming at the end of the previous match).
* External I/O (the two `ask_ollama` calls per cycle) is abstracted as
  an oracle `Nat → Option String × Option String`: `none` stands for a
  raised exception (service unreachable, or `response.json()` lacking
  the `"response"` key); the text of the prompts does not influence any
  claim, only the returned texts do.
* Python `set` values are modelled by `List.dedup`; the arbitrary
  iteration order of a `set` is modelled, where a claim depends on it,
  by an explicit permutation parameter.
-/

namespace MiaSymbolic

/-- ASCII word character, Python regex `\w` or the class `[A-Za-z0-9_]`. -/
def isWordChar (c : Char) : Bool := c.isAlpha || c.isDigit || c = '_'

/-- Python regex `\s` restricted to ASCII. -/
def isPySpace (c : Char) : Bool :=
  c = ' ' || c = '\t' || c = '\n' || c = '\r' || c = '\x0b' || c = '\x0c'

/-- Characters of the class `[A-Za-z0-9_\-]` used by the first pattern of
`estrai_simboli_concetti` (source line 63): a word character or a hyphen. -/
def isClassW (c : Char) : Bool := isWordChar c || c = '-'

/-- Python `\b` in front of a word character: the previous character must be
absent (start of string) or a non-word character. -/
def bStart (prev : Option Char) : Bool := prev.all (fun p => !isWordChar p)

/-- Python `\b` after a just-consumed character `last` and before `next`
(`none` meaning end of string): word-ness must change, and at end of string
the boundary holds exactly when `last` is a word character. -/
def bAfter (last : Char) (next : Option Char) : Bool :=
  match next with
  | some c => isWordChar last != isWordChar c
  | none => isWordChar last

/-- Python `str.strip()` on a character list (ASCII whitespace). -/
def pyStripList (l : List Char) : List Char :=
  ((l.dropWhile isPySpace).reverse.dropWhile isPySpace).reverse

/-- Python `str.strip()`. -/
def pyStrip (s : String) : String := ⟨pyStripList s.data⟩

/-!
Pattern A of `estrai_simboli_concetti` (source line 63):
`re.findall(r"\b([A-Z][A-Za-z0-9_\-]{2,})\b", testo)`.

At a match position the engine consumes one `[A-Z]`, then greedily a maximal
run of `[A-Za-z0-9_\-]`, then backtracks the `{2,}` quantifier from the full
run length down to 2 until the trailing `\b` holds.
-/

/-- The character following offset `k` of the run (`after` once past it). -/
def nextAtA (run : List Char) (after : Option Char) (k : Nat) : Option Char :=
  match run[k]? with
  | some c => some c
  | none => after

/-- Whether the trailing `\b` of pattern A holds after consuming exactly `k`
characters of the run. -/
def boundaryOkA (run : List Char) (after : Option Char) (k : Nat) : Bool :=
  match run[k-1]? with
  | some last => bAfter last (nextAtA run after k)
  | none => false

/-- The repetition count chosen by the greedy `{2,}`: the largest `k` with
`2 ≤ k ≤ run.length` whose trailing `\b` holds. -/
def bestK (run : List Char) (after : Option Char) : Option Nat :=
  (List.range' 2 (run.length - 1)).reverse.find? (fun k => boundaryOkA run after k)

/-- One left-to-right `findall` scan for pattern A. `prev` is the character
just before the current position (for `\b`); the fuel is an upper bound on
the number of scan steps, each of which consumes at least one character. -/
def findallAAux : Nat → Option Char → List Char → List (List Char)
  | 0, _, _ => []
  | _+1, _, [] => []
  | fuel+1, prev, c :: t =>
    if bStart prev && c.isUpper then
      let run := t.takeWhile isClassW
      let after := (t.drop run.length).head?
      match bestK run after with
      | some k =>
        (c :: run.take k) :: findallAAux fuel (some ((run.take k).getLastD c)) (t.drop k)
      | none => findallAAux fuel (some c) t
    else findallAAux fuel (some c) t

/-- `re.findall(r"\b([A-Z][A-Za-z0-9_\-]{2,})\b", testo)` (source line 63). -/
def findallA (s : String) : List (List Char) := findallAAux s.data.length none s.data

example : findallA ("Qed") = [("Qed").data] := by decide
example : findallA ("") = [] := by decide
example : findallA ("ABC--.") = [("ABC").data] := by decide
example : findallA ("ab Cde-f gH") = [("Cde-f").data] := by decide

/-!
Pattern B of `estrai_simboli_concetti` (source line 64):
`re.findall(r"\b([A-Za-z]+\s(?:problem|theory|...|supernova))\b", testo,
re.IGNORECASE)` — one word of letters, a single whitespace character, then
one keyword of a fixed vocabulary, matched case-insensitively, followed by
`\b`. The `[A-Za-z]+` run must be maximal: shrinking it puts a letter where
`\s` is required. No keyword is a prefix of another, so at most one
alternative can match at a position; they are still tried in source order.
-/

/-- The fixed keyword vocabulary of source line 64, lowercased, in the order
of the alternation. -/
def keywordsB : List (List Char) :=
  [("problem").data, ("theory").data, ("model").data, ("force").data,
   ("gravity").data, ("energy").data, ("wave").data, ("system").data,
   ("phenomena").data, ("experiment").data, ("framework").data, ("trap").data,
   ("cloud").data, ("atom").data, ("quantum").data, ("scaling").data,
   ("error").data, ("data").data, ("simulation").data, ("universe").data,
   ("dimension").data, ("boson").data, ("relativity").data, ("symmetry").data,
   ("inflation").data, ("black hole").data, ("wormhole").data,
   ("neutron star").data, ("supernova").data]

/-- Case-insensitive literal match of a lowercased keyword against the head
of `s`; returns the matched source text and the remainder. -/
def matchKwCI : List Char → List Char → Option (List Char × List Char)
  | [], s => some ([], s)
  | _ :: _, [] => none
  | k :: ks, c :: cs =>
    if c.toLower = k then
      match matchKwCI ks cs with
      | some (m, rest) => some (c :: m, rest)
      | none => none
    else none

/-- Try the alternation of pattern B at the head of `r2`, including the
trailing `\b` of each alternative (every keyword ends in a letter). -/
def tryKeywordB (r2 : List Char) : Option (List Char × List Char) :=
  keywordsB.findSome? (fun kw =>
    match matchKwCI kw r2 with
    | some (m, rest) =>
      if bAfter (m.getLastD ' ') rest.head? then some (m, rest) else none
    | none => none)

/-- One left-to-right `findall` scan for pattern B. -/
def findallBAux : Nat → Option Char → List Char → List (List Char)
  | 0, _, _ => []
  | _+1, _, [] => []
  | fuel+1, prev, c :: t =>
    if bStart prev && c.isAlpha then
      let letters := t.takeWhile (fun x => x.isAlpha)
      match t.drop letters.length with
      | w :: r2 =>
        if isPySpace w then
          match tryKeywordB r2 with
          | some (m, rest2) =>
            ((c :: letters) ++ w :: m) :: findallBAux fuel (some (m.getLastD w)) rest2
          | none => findallBAux fuel (some c) t
        else findallBAux fuel (some c) t
      | [] => findallBAux fuel (some c) t
    else findallBAux fuel (some c) t

/-- `re.findall` of the domain-keyword pattern (source line 64). -/
def findallB (s : String) : List (List Char) := findallBAux s.data.length none s.data

example : findallB ("the String Theory wins") = [("String Theory").data] := by decide
example : findallB ("a black hole") = [("a black hole").data] := by decide
example : findallB ("theory") = [] := by decide
example : findallB ("an energy2 leak") = [] := by decide

/-!
Pattern C of `estrai_simboli_concetti` (source line 65):
`re.findall(r"\b([A-Za-z]+\d*)\^?\d*\b", testo)`. The capture is a maximal
letter run followed by a maximal digit run; `\^?\d*` after the capture and
the trailing `\b` only influence where the scan resumes. Backtracking: with
a `^` present some branch always succeeds (taking `^` and its digits, just
`^`, or giving `^` back); without one the match succeeds exactly when the
character after the capture is absent or a non-word character.
-/

/-- Pattern C at a position whose first character is a letter: returns the
capture, the remainder after the whole match, and the last consumed
character (the `prev` for the next scan step). -/
def matchCAt (s : List Char) : Option (List Char × List Char × Char) :=
  let letters := s.takeWhile (fun x => x.isAlpha)
  let r1 := s.drop letters.length
  let d1 := r1.takeWhile (fun x => x.isDigit)
  let cap := letters ++ d1
  match r1.drop d1.length with
  | '^' :: r3 =>
    let d2 := r3.takeWhile (fun x => x.isDigit)
    let r4 := r3.drop d2.length
    if !d2.isEmpty && (match r4.head? with
        | some nx => !isWordChar nx
        | none => true) then
      -- greedy: consume the ^ and its digits, \b holds after the last digit
      some (cap, r4, d2.getLastD '^')
    else if match r3.head? with
        | some nx => isWordChar nx
        | none => false then
      -- consume just the ^: boundary between the non-word ^ and a word char
      some (cap, r3, '^')
    else
      -- give the ^ back: boundary between the word capture end and the ^
      some (cap, '^' :: r3, cap.getLastD '^')
  | r2 =>
    match r2.head? with
    | some nx => if isWordChar nx then none else some (cap, r2, cap.getLastD '^')
    | none => some (cap, r2, cap.getLastD '^')

/-- One left-to-right `findall` scan for pattern C. -/
def findallCAux : Nat → Option Char → List Char → List (List Char)
  | 0, _, _ => []
  | _+1, _, [] => []
  | fuel+1, prev, c :: t =>
    if bStart prev && c.isAlpha then
      match matchCAt (c :: t) with
      | some (cap, remaining, last) => cap :: findallCAux fuel (some last) remaining
      | none => findallCAux fuel (some c) t
    else findallCAux fuel (some c) t

/-- `re.findall(r"\b([A-Za-z]+\d*)\^?\d*\b", testo)` (source line 65). -/
def findallC (s : String) : List (List Char) := findallCAux s.data.length none s.data

example : findallC ("e=mc2") = [("e").data, ("mc2").data] := by decide
example : findallC ("ab^cd") = [("ab").data, ("cd").data] := by decide
example : findallC ("ab12cd") = [] := by decide
example : findallC ("Qed") = [("Qed").data] := by decide
example : findallC ("ab^12x") = [("ab").data] := by decide

/-!
`estrai_simboli_concetti` (source lines 61-67): union of the three pattern
families collected into a Python `set`, then
`{s.strip() for s in simboli if len(s.strip()) > 2}` and `list(...)`.
Sets are modelled by `List.dedup`; the arbitrary iteration order of the
final `set` is modelled by the permutation parameter of
`estrai_simboli_run`, and `estrai_simboli_concetti` is the canonical run.
-/

/-- All raw matches of the three patterns of `estrai_simboli_concetti`, in
scan order, before any set formation or filtering. -/
def rawSimboli (testo : String) : List String :=
  (findallA testo ++ findallB testo ++ findallC testo).map (fun l => (⟨l⟩ : String))

/-- `estrai_simboli_concetti` with the iteration order of the Python sets
made explicit: `ord` stands for the order in which the deduplicated matches
come out of the set. -/
def estrai_simboli_run (ord : List String → List String) (testo : String) :
    List String :=
  (((ord (rawSimboli testo).dedup).filter
      (fun s => 2 < (pyStrip s).length)).map pyStrip).dedup

/-- `estrai_simboli_concetti` (source lines 61-67), canonical run. -/
def estrai_simboli_concetti (testo : String) : List String :=
  estrai_simboli_run id testo

/-!
`estrai_domande_aperte` (source lines 69-78). First
`re.search(r"(?:Open questions:|Domande aperte:|Questions:)([\s\S]+?)(?:\n\n|$)",
peer_review, re.IGNORECASE)` isolates a labelled block — lazy `+?` stops at
the first blank line or at `$` (end of string, or just before one final
newline). The block is mined with `re.findall(r"\d+\.\s*(.+)", blocco)`;
independently the whole text is mined with
`re.findall(r"([A-Z][^\n\r\.!?]*\?)", peer_review)`. Finally
`[d.strip() for d in set(domande) if len(d.strip()) > 10]` — a list built
from a set, so the order is arbitrary (permutation parameter of
`estrai_domande_run`) and stripped duplicates are not re-collapsed.
-/

/-- The three heading synonyms of the block pattern, lowercased, in
alternation order. -/
def labelsQ : List (List Char) :=
  [("open questions:").data, ("domande aperte:").data, ("questions:").data]

/-- Case-insensitive literal match of a lowercased label at the head of `s`,
returning the remainder. -/
def matchLabelCI : List Char → List Char → Option (List Char)
  | [], s => some s
  | _ :: _, [] => none
  | k :: ks, c :: cs => if c.toLower = k then matchLabelCI ks cs else none

/-- The lazy `[\s\S]+?` continuation after its first (unconditional)
character: stop before a blank line `\n\n`, at end of string, or just before
one final newline (Python `$`). -/
def blockTakeAux : List Char → List Char
  | [] => []
  | ['\n'] => []
  | '\n' :: '\n' :: _ => []
  | c :: rest => c :: blockTakeAux rest

/-- The lazy block body: at least one character, then `blockTakeAux`. -/
def blockTake : List Char → List Char
  | [] => []
  | c :: rest => c :: blockTakeAux rest

/-- `re.search` of the labelled-block pattern (source lines 71-72): leftmost
position where a heading synonym matches and at least one character follows,
returning the lazily matched block. -/
def searchBlock : List Char → Option (List Char)
  | [] => none
  | c :: t =>
    match labelsQ.findSome? (fun lab => matchLabelCI lab (c :: t)) with
    | some [] => searchBlock t
    | some (r :: rs) => some (blockTake (r :: rs))
    | none => searchBlock t

/-- The whitespace giveback chosen by the greedy `\s*` of `\d+\.\s*(.+)`:
the largest `t` not exceeding the whitespace run of `p` such that a
non-`'\n'` character sits at offset `t` (where `(.+)` can start). -/
def bestT (p : List Char) : Option Nat :=
  (List.range ((p.takeWhile isPySpace).length + 1)).reverse.find? (fun t =>
    match p[t]? with
    | some ch => ch != '\n'
    | none => false)

/-- One left-to-right `findall` scan for `\d+\.\s*(.+)` (source line 75). -/
def findallNumberedAux : Nat → List Char → List (List Char)
  | 0, _ => []
  | _+1, [] => []
  | fuel+1, c :: t =>
    let digits := (c :: t).takeWhile (fun x => x.isDigit)
    if digits.isEmpty then findallNumberedAux fuel t
    else
      match (c :: t).drop digits.length with
      | '.' :: p =>
        match bestT p with
        | some tstar =>
          let cap := (p.drop tstar).takeWhile (fun x => x != '\n')
          cap :: findallNumberedAux fuel ((p.drop tstar).drop cap.length)
        | none => findallNumberedAux fuel t
      | _ => findallNumberedAux fuel t

/-- One left-to-right `findall` scan for `([A-Z][^\n\r\.!?]*\?)` (source
line 76): a capital letter, a maximal run free of terminators, then a
literal `?`; no shorter run can succeed, so failure just advances the scan. -/
def findallQAux : Nat → List Char → List (List Char)
  | 0, _ => []
  | _+1, [] => []
  | fuel+1, c :: t =>
    if c.isUpper then
      let r := t.takeWhile (fun x => !(x = '\n' || x = '\r' || x = '.' || x = '!' || x = '?'))
      match t.drop r.length with
      | '?' :: r2 => (c :: (r ++ [('?' : Char)])) :: findallQAux fuel r2
      | _ => findallQAux fuel t
    else findallQAux fuel t

/-- All raw question matches of `estrai_domande_aperte` in source order:
numbered lines of the labelled block (if any), then `?`-sentences of the
whole text. -/
def rawDomande (peer_review : String) : List String :=
  ((match searchBlock peer_review.data with
    | some blocco => findallNumberedAux blocco.length blocco
    | none => []) ++ findallQAux peer_review.data.length peer_review.data).map
    (fun l => (⟨l⟩ : String))

/-- `estrai_domande_aperte` with the iteration order of `set(domande)` made
explicit. Note the list comprehension does not re-deduplicate after
stripping. -/
def estrai_domande_run (ord : List String → List String) (peer_review : String) :
    List String :=
  ((ord (rawDomande peer_review).dedup).filter
      (fun d => 10 < (pyStrip d).length)).map pyStrip

/-- `estrai_domande_aperte` (source lines 69-78), canonical run. -/
def estrai_domande_aperte (peer_review : String) : List String :=
  estrai_domande_run id peer_review

example : estrai_domande_aperte ("") = [] := by decide
example : estrai_simboli_concetti ("") = [] := by decide
example : estrai_simboli_concetti ("Qed") = [("Qed" : String)] := by decide

/-!
`generate_prompt` (source lines 27-32): a pure function of the symbol and
question lists. Python's `symbols[:5]` and `symbols[:8]` are `List.take`,
`", ".join` is `String.intercalate ", "`.
-/

/-- `generate_prompt(symbols, questions)` (source lines 27-32). -/
def generate_prompt (symbols questions : List String) : String :=
  let q := match questions with
    | q0 :: _ => q0
    | [] => "Approfondisci uno dei seguenti concetti: " ++
        String.intercalate (", ") (symbols.take 5)
  "Rispondi in modo rigoroso e simbolico alla domanda: \x27" ++ q ++
    "\x27. Usa i simboli chiave: " ++ String.intercalate (", ") (symbols.take 8) ++ "."

/-!
`scrape_url` (source lines 53-59). The body of the `try` block — the HTTP
GET, the BeautifulSoup parse and `get_text()` — is external I/O, modelled by
a `FetchOutcome`: `ok text` is the visible text the parse produced, `err msg`
is any exception raised anywhere inside the `try` (timeout, DNS, parse),
with its rendered message. The function itself never raises: the `except`
arm returns the diagnostic string instead.
-/

/-- Outcome of the `try` body of `scrape_url`. -/
inductive FetchOutcome where
  | ok (text : String)
  | err (msg : String)
  deriving DecidableEq

/-- `scrape_url(url)` (source lines 53-59): truncation to 2000 characters on
success, the `[Errore scraping {url}: {e}]` diagnostic on any exception. -/
def scrape_url (url : String) (outcome : FetchOutcome) : String :=
  match outcome with
  | .ok text => text.take 2000
  | .err e => "[Errore scraping " ++ url ++ ": " ++ e ++ "]"

/-- The spec's ephemeral Source Document view of one fetch (§3): `success`
records which arm of the `try` ran, `text` is what `scrape_url` returned. -/
structure SourceDoc where
  url : String
  text : String
  success : Bool

/-- The Source Document produced by one `scrape_url` call. -/
def fetch_doc (url : String) (outcome : FetchOutcome) : SourceDoc :=
  { url := url
    text := scrape_url url outcome
    success := match outcome with | .ok _ => true | .err _ => false }

/-!
The roadmap (JSON dict read from and written to `mia_symbolic_roadmap.json`).
The orchestrator touches only `focus_symbols` and `open_questions` (lines
113-114); every other key of the loaded dict is passed through to the dump
unchanged. The freshly initialised roadmap (lines 19-23) has no `metadata`
and no `peer_reviews` key, while a file written by the generator has both —
hence those fields are `Option`s. The review-record payload is opaque to the
orchestrator and is a type parameter `P`. The remaining generator keys
(`web_sources`, `symbolic_connections`) pass through exactly like
`peer_reviews` and are omitted from the model.
-/

/-- The `metadata` sub-dict maintained by the generator (source
`mia_symbolic_generator.py` lines 33-39). -/
structure Metadata where
  created : String
  last_updated : String
  version : String
  total_symbols : Nat
  total_questions : Nat
  deriving DecidableEq

/-- The orchestrator's view of the roadmap dict. -/
structure Roadmap (P : Type) where
  focus_symbols : List String
  open_questions : List String
  operational_recommendations : List String
  metadata : Option Metadata
  peer_reviews : Option (List P)
  deriving DecidableEq

/-- The Extraction Result of one cycle (spec §3): the symbols mined from the
generated reply and the review, and the questions mined from the review. -/
structure Extraction where
  simboli : List String
  domande : List String

/-- The merge step, source lines 113-114:
`roadmap["focus_symbols"] = list(set(roadmap["focus_symbols"] + simboli))`
and `roadmap["open_questions"] = domande_aperte`. All other keys of the dict
are untouched. -/
def merge_extraction {P : Type} (r : Roadmap P) (e : Extraction) : Roadmap P :=
  { r with
    focus_symbols := (r.focus_symbols ++ e.simboli).dedup
    open_questions := e.domande }

/-- `ciclo_symbolic(roadmap, ciclo_num)` (source lines 80-115), parameterised
by the two texts returned by the `ask_ollama` calls (`risposta`, line 84, and
`review`, line 101). The prompts, the web scraping and the printing influence
no roadmap field; the roadmap is only read until both external calls have
succeeded, then updated by the merge step. -/
def ciclo_symbolic {P : Type} (r : Roadmap P) (risposta review : String) :
    Roadmap P :=
  merge_extraction r
    ⟨estrai_simboli_concetti risposta ++ estrai_simboli_concetti review,
     estrai_domande_aperte review⟩

/-!
The `__main__` loop (source lines 121-129) with constants from lines 11-12:
up to `CYCLES` iterations; each iteration runs a cycle, dumps the roadmap to
the file, breaks if `open_questions` is empty, otherwise sleeps
`SLEEP_BETWEEN_CYCLES` seconds. A raised exception in `ask_ollama` is not
caught anywhere: it aborts the process with the in-memory roadmap unmutated
and nothing written. The oracle gives, per cycle index, the outcome of each
of the two `ask_ollama` calls (`none` = exception).
-/

/-- `CYCLES = 5` (source line 11). -/
def CYCLES : Nat := 5

/-- `SLEEP_BETWEEN_CYCLES = 2` (source line 12). -/
def SLEEP_BETWEEN_CYCLES : Nat := 2

/-- Outcomes of the two `ask_ollama` calls of each cycle, by cycle index. -/
def Oracle : Type := Nat → Option String × Option String

/-- Observable actions of the `__main__` loop: the start of a cycle, a dump
of the roadmap to the file, and the between-cycle sleep (the 1-second
per-URL pacing inside a cycle is internal to `Ev.cycle`). -/
inductive Ev (P : Type) where
  | cycle (i : Nat)
  | save (r : Roadmap P)
  | sleep (secs : Nat)
  deriving DecidableEq

/-- Final state of the loop: the in-memory roadmap and the durable file
content, either after a normal exit or after an uncaught `ask_ollama`
exception aborted cycle `i`. -/
inductive LoopOut (P : Type) where
  | finished (mem file : Roadmap P)
  | aborted (i : Nat) (mem file : Roadmap P)
  deriving DecidableEq

/-- The `__main__` loop (source lines 121-129): `fuel` iterations remain,
`i` is the current cycle index, `mem`/`file` the in-memory roadmap and the
durable file. Returns the event trace and the final state. -/
def runLoopE {P : Type} :
    Nat → Nat → Roadmap P → Roadmap P → Oracle → List (Ev P) × LoopOut P
  | 0, _, mem, file, _ => ([], .finished mem file)
  | fuel+1, i, mem, file, o =>
    match o i with
    | (some a, some b) =>
      let r := ciclo_symbolic mem a b
      if r.open_questions.isEmpty then
        ([.cycle i, .save r], .finished r r)
      else
        let rest := runLoopE fuel (i+1) r r o
        (.cycle i :: .save r :: .sleep SLEEP_BETWEEN_CYCLES :: rest.1, rest.2)
    | _ => ([.cycle i], .aborted i mem file)

/-- Number of cycles started in an event trace. -/
def countCycles {P : Type} (evs : List (Ev P)) : Nat :=
  evs.countP (fun e => match e with | .cycle _ => true | _ => false)

/-!
`SymbolicGenerator.update_roadmap` (`mia_symbolic_generator.py`, lines
216-269). The generated symbols, questions, web sources and the optional
peer-review record are produced by impure helpers (`random`, `time`,
`subprocess`); they enter here as parameters with opaque payload types.
`run_peer_review` returns `None` on an exception, hence the `Option`.
-/

/-- The generator's `metadata` sub-dict. -/
structure GenMetadata where
  created : String
  last_updated : String
  version : String
  total_symbols : Nat
  total_questions : Nat

/-- One operational-recommendation record (generator lines 244-260). -/
structure OpRec where
  type : String
  description : String
  priority : String

/-- The generator's roadmap dict (generator lines 32-46), with opaque
payload types for symbols `S`, questions `Q`, web sources `W` and
peer-review records `P`; `symbolic_connections` is never read or written by
`update_roadmap` and its payload is modelled as `String`. -/
structure GenRoadmap (S Q W P : Type) where
  metadata : GenMetadata
  focus_symbols : List S
  open_questions : List Q
  operational_recommendations : List OpRec
  symbolic_connections : List String
  web_sources : List W
  peer_reviews : List P

/-- `update_roadmap` (generator lines 216-269): extend the collections,
append the peer review when one was produced, refresh the metadata counters
from the extended collections, replace the recommendations, and save. The
returned value is exactly what is dumped to the roadmap file. -/
def update_roadmap {S Q W P : Type} (r : GenRoadmap S Q W P)
    (new_symbols : List S) (new_questions : List Q) (new_sources : List W)
    (peer_review : Option P) (now : String) : GenRoadmap S Q W P :=
  let focus := r.focus_symbols ++ new_symbols
  let questions := r.open_questions ++ new_questions
  { metadata :=
      { r.metadata with
        last_updated := now
        total_symbols := focus.length
        total_questions := questions.length }
    focus_symbols := focus
    open_questions := questions
    operational_recommendations :=
      [⟨"symbol_connection",
        "Esplora connessioni tra " ++ toString new_symbols.length ++ " nuovi simboli",
        "high"⟩,
       ⟨"question_resolution",
        "Risolvi " ++ toString new_questions.length ++ " domande aperte",
        "medium"⟩,
       ⟨"source_validation", "Valida fonti web estratte", "low"⟩]
    symbolic_connections := r.symbolic_connections
    web_sources := r.web_sources ++ new_sources
    peer_reviews := r.peer_reviews ++ peer_review.toList }

/-! Helper lemmas. -/

/-- Deduplication does not change the underlying finite set. -/
theorem dedup_toFinset (l : List String) : l.dedup.toFinset = l.toFinset := by
  apply List.toFinset.ext
  intro x
  simp [List.mem_dedup]

/-! Claims about the merge step and the extractors. -/

/-- Claim C1: merging extracted symbols into the roadmap is idempotent — for
every roadmap and every extraction result, applying the symbol-merge step of
lines 113-114 twice with the same extraction yields the same `focus_symbols`
set as applying it once. -/
theorem claim_C1 : ∀ (P : Type) (r : Roadmap P) (e : Extraction),
    (merge_extraction (merge_extraction r e) e).focus_symbols.toFinset =
      (merge_extraction r e).focus_symbols.toFinset := by
  intro P r e
  simp [merge_extraction, dedup_toFinset, List.toFinset_append, Finset.union_assoc]

/-- Claim C2: after the merge step the roadmap's `open_questions` equals
exactly the question sequence extracted from that cycle's review text —
prior questions are replaced, never unioned; in particular an empty
extraction empties `open_questions`. -/
theorem claim_C2 :
    (∀ (P : Type) (r : Roadmap P) (risposta review : String),
      (ciclo_symbolic r risposta review).open_questions =
        estrai_domande_aperte review) ∧
    (∀ (P : Type) (r : Roadmap P) (risposta review : String),
      estrai_domande_aperte review = [] →
      (ciclo_symbolic r risposta review).open_questions = []) := by
  constructor
  · intro P r risposta review
    rfl
  · intro P r risposta review h
    simp [ciclo_symbolic, merge_extraction, h]

/-- Witness for C2 at a concrete roadmap and an empty review text. -/
theorem claim_C2_witness :
    (ciclo_symbolic (⟨[], [], [], none, none⟩ : Roadmap Unit) ("A") ("")).open_questions
      = [] :=
  claim_C2.2 Unit ⟨[], [], [], none, none⟩ ("A") ("") (by decide)

/-- Claim C6: the extractors are total — they are plain functions of the
input string (no failure path is even expressible: every exception-free
Python path is embedded), and an input with no pattern matches yields an
empty collection; in particular both extractors return `[]` on `""`. -/
theorem claim_C6 :
    estrai_simboli_concetti ("") = [] ∧ estrai_domande_aperte ("") = [] ∧
    (∀ testo : String, rawSimboli testo = [] →
      estrai_simboli_concetti testo = []) ∧
    (∀ peer_review : String, rawDomande peer_review = [] →
      estrai_domande_aperte peer_review = []) := by
  refine ⟨by decide, by decide, ?_, ?_⟩
  · intro t h
    simp [estrai_simboli_concetti, estrai_simboli_run, h]
  · intro t h
    simp [estrai_domande_aperte, estrai_domande_run, h]

/-- Witness for C6 at the matchless input `"?"`. -/
theorem claim_C6_witness :
    estrai_simboli_concetti ("?") = [] ∧ estrai_domande_aperte ("?") = [] :=
  ⟨claim_C6.2.2.1 ("?") (by decide), claim_C6.2.2.2 ("?") (by decide)⟩

/-- Claim C10: extraction is deterministic up to ordering — whatever
iteration orders the Python sets produce in two runs on the same input, the
returned lists have the same underlying set of strings, for both
extractors. -/
theorem claim_C10 : ∀ (σ τ : List String → List String) (t : String),
    (∀ l : List String, (σ l).Perm l) → (∀ l : List String, (τ l).Perm l) →
    (estrai_simboli_run σ t).toFinset = (estrai_simboli_run τ t).toFinset ∧
    (estrai_domande_run σ t).toFinset = (estrai_domande_run τ t).toFinset := by
  intro σ τ t hσ hτ
  have hp : (σ ((rawSimboli t).dedup)).Perm (τ ((rawSimboli t).dedup)) :=
    (hσ _).trans (hτ _).symm
  have hq : (σ ((rawDomande t).dedup)).Perm (τ ((rawDomande t).dedup)) :=
    (hσ _).trans (hτ _).symm
  constructor
  · exact List.toFinset_eq_of_perm _ _ (((hp.filter _).map _).dedup)
  · exact List.toFinset_eq_of_perm _ _ ((hq.filter _).map _)

/-- Witness for C10: a reversed iteration order and the canonical one agree
on the extracted sets of a concrete input. -/
theorem claim_C10_witness :
    (estrai_simboli_run List.reverse ("Qed")).toFinset =
      (estrai_simboli_run id ("Qed")).toFinset ∧
    (estrai_domande_run List.reverse ("Qed")).toFinset =
      (estrai_domande_run id ("Qed")).toFinset :=
  claim_C10 List.reverse id ("Qed") (fun l => List.reverse_perm l)
    (fun l => List.Perm.refl l)

/-! Claims about the prompt builder and the fetcher. -/

/-- Claim C9: `generate_prompt` is a pure function (a plain `def` of its two
arguments) that embeds the first open question when one exists, otherwise
embeds the first 5 symbols in the elaboration fallback, and in both cases
embeds the first 8 symbols as context vocabulary. -/
theorem claim_C9 :
    (∀ (symbols : List String) (q0 : String) (qs : List String),
      (∃ a b, generate_prompt symbols (q0 :: qs) = a ++ q0 ++ b) ∧
      ∃ c d, generate_prompt symbols (q0 :: qs) =
        c ++ String.intercalate (", ") (symbols.take 8) ++ d) ∧
    (∀ symbols : List String,
      (∃ a b, generate_prompt symbols [] =
        a ++ String.intercalate (", ") (symbols.take 5) ++ b) ∧
      ∃ c d, generate_prompt symbols [] =
        c ++ String.intercalate (", ") (symbols.take 8) ++ d) := by
  constructor
  · intro symbols q0 qs
    constructor
    · exact ⟨"Rispondi in modo rigoroso e simbolico alla domanda: \x27",
        "\x27. Usa i simboli chiave: " ++
          (String.intercalate (", ") (symbols.take 8) ++ "."),
        by simp [generate_prompt, String.append_assoc]⟩
    · exact ⟨"Rispondi in modo rigoroso e simbolico alla domanda: \x27" ++
          (q0 ++ "\x27. Usa i simboli chiave: "), ".",
        by simp [generate_prompt, String.append_assoc]⟩
  · intro symbols
    constructor
    · exact ⟨"Rispondi in modo rigoroso e simbolico alla domanda: \x27" ++
          "Approfondisci uno dei seguenti concetti: ",
        "\x27. Usa i simboli chiave: " ++
          (String.intercalate (", ") (symbols.take 8) ++ "."),
        by
          simp [generate_prompt, String.append_assoc]
          rw [← String.append_assoc]
          simp⟩
    · exact ⟨"Rispondi in modo rigoroso e simbolico alla domanda: \x27" ++
          ("Approfondisci uno dei seguenti concetti: " ++
            (String.intercalate (", ") (symbols.take 5) ++
              "\x27. Usa i simboli chiave: ")), ".",
        by simp [generate_prompt, String.append_assoc]⟩

/-- Claim C7: `scrape_url` never raises — the catch-all `except` arm is part
of the function — and on any failing fetch the resulting Source Document is
marked unsuccessful and carries the non-empty diagnostic text
`[Errore scraping {url}: {e}]` instead of a propagated error. -/
theorem claim_C7 : ∀ (url e : String),
    (fetch_doc url (FetchOutcome.err e)).success = false ∧
    (fetch_doc url (FetchOutcome.err e)).text =
      "[Errore scraping " ++ url ++ ": " ++ e ++ "]" ∧
    0 < (fetch_doc url (FetchOutcome.err e)).text.length := by
  intro url e
  refine ⟨rfl, rfl, ?_⟩
  show 0 < ("[Errore scraping " ++ url ++ ": " ++ e ++ "]").length
  have h17 : ("[Errore scraping " : String).length = 17 := by decide
  simp [String.length_append, h17]

/-! Claims about metadata and peer reviews. -/

/-- Claim C4, amended: after a save performed by the generator's
`update_roadmap` the metadata counters equal the collection sizes. (The
orchestrator's per-cycle save does not maintain this invariant — see the
counterexample.) -/
theorem claim_C4 : ∀ (S Q W P : Type) (r : GenRoadmap S Q W P)
    (ns : List S) (nq : List Q) (nw : List W) (pr : Option P) (now : String),
    (update_roadmap r ns nq nw pr now).metadata.total_symbols =
      (update_roadmap r ns nq nw pr now).focus_symbols.length ∧
    (update_roadmap r ns nq nw pr now).metadata.total_questions =
      (update_roadmap r ns nq nw pr now).open_questions.length := by
  intro S Q W P r ns nq nw pr now
  exact ⟨rfl, rfl⟩

/-- The orchestrator roadmap of the C4 counterexample: one loaded with
generator metadata whose counters are consistent (0 symbols). -/
def staleRoadmap : Roadmap Unit := ⟨[], [], [], some ⟨"", "", "2.0", 0, 0⟩, none⟩

/-- The oracle of the C4 counterexample: the reply text contains one symbol
and the review text none, so the single cycle converges immediately. -/
def staleOracle : Oracle := fun _ => (some ("Qed"), some (""))

/-- The roadmap the orchestrator saves in the C4 counterexample run. -/
def staleSaved : Roadmap Unit :=
  ⟨[("Qed" : String)], [], [], some ⟨"", "", "2.0", 0, 0⟩, none⟩

/-- Counterexample to C4 as stated: a full run of the `__main__` loop whose
only save writes a roadmap holding 1 symbol while `metadata.total_symbols`
is still 0 — the orchestrator's save (lines 125-126) never refreshes the
metadata counters. -/
theorem claim_C4_counterexample :
    (runLoopE 5 0 staleRoadmap staleRoadmap staleOracle).1 =
      [Ev.cycle 0, Ev.save staleSaved] ∧
    (runLoopE 5 0 staleRoadmap staleRoadmap staleOracle).2 =
      LoopOut.finished staleSaved staleSaved ∧
    staleSaved.metadata = some ⟨"", "", "2.0", 0, 0⟩ ∧
    staleSaved.focus_symbols.length = 1 := by decide

/-- Claim C8, amended: the orchestrator's per-cycle merge never records a
peer review (it passes `peer_reviews` through untouched — the review text is
only mined and then dropped); in the generator, `update_roadmap` appends the
at most one produced review record and never removes or modifies existing
ones. -/
theorem claim_C8 :
    (∀ (P : Type) (r : Roadmap P) (risposta review : String),
      (ciclo_symbolic r risposta review).peer_reviews = r.peer_reviews) ∧
    (∀ (S Q W P : Type) (r : GenRoadmap S Q W P) (ns : List S) (nq : List Q)
      (nw : List W) (pr : Option P) (now : String),
      (update_roadmap r ns nq nw pr now).peer_reviews =
        r.peer_reviews ++ pr.toList ∧
      pr.toList.length ≤ 1) := by
  constructor
  · intro P r risposta review
    rfl
  · intro S Q W P r ns nq nw pr now
    refine ⟨rfl, ?_⟩
    cases pr <;> simp

/-- The roadmap of the C8 counterexample, carrying an (empty) peer-review
history through a cycle. -/
def reviewedRoadmap : Roadmap Unit := ⟨[], [], [], none, some []⟩

/-- Counterexample to C8 as stated: a completed cycle whose merge appended
no peer-review record — `peer_reviews` is exactly as before the cycle even
though the cycle mined symbols and ran to completion. -/
theorem claim_C8_counterexample :
    (ciclo_symbolic reviewedRoadmap ("Qed") ("")).peer_reviews = some [] ∧
    (ciclo_symbolic reviewedRoadmap ("Qed") ("")).focus_symbols =
      [("Qed" : String)] := by decide

/-! Lemmas about the `__main__` loop. -/

/-- Cycle indices appearing in the trace of `runLoopE` starting at index `i`
are at least `i`. -/
theorem runLoopE_cycle_ge {P : Type} (o : Oracle) :
    ∀ (fuel i : Nat) (mem file : Roadmap P) (j : Nat),
      Ev.cycle j ∈ (runLoopE fuel i mem file o).1 → i ≤ j := by
  intro fuel
  induction fuel with
  | zero =>
    intro i mem file j h
    simp [runLoopE] at h
  | succ n ih =>
    intro i mem file j h
    rcases ho : o i with ⟨x, y⟩
    rcases x with _ | a
    · simp [runLoopE, ho] at h
      omega
    · rcases y with _ | b
      · simp [runLoopE, ho] at h
        omega
      · by_cases hq : (ciclo_symbolic mem a b).open_questions.isEmpty
        · simp [runLoopE, ho, hq] at h
          omega
        · simp [runLoopE, ho, hq] at h
          rcases h with h | h
          · omega
          · have := ih (i+1) _ _ j h
            omega

/-- Every sleep event of the loop trace sleeps `SLEEP_BETWEEN_CYCLES`
seconds. -/
theorem runLoopE_sleep_fixed {P : Type} (o : Oracle) :
    ∀ (fuel i : Nat) (mem file : Roadmap P) (n : Nat),
      Ev.sleep n ∈ (runLoopE fuel i mem file o).1 → n = SLEEP_BETWEEN_CYCLES := by
  intro fuel
  induction fuel with
  | zero =>
    intro i mem file n h
    simp [runLoopE] at h
  | succ m ih =>
    intro i mem file n h
    rcases ho : o i with ⟨x, y⟩
    rcases x with _ | a
    · simp [runLoopE, ho] at h
    · rcases y with _ | b
      · simp [runLoopE, ho] at h
      · by_cases hq : (ciclo_symbolic mem a b).open_questions.isEmpty
        · simp [runLoopE, ho, hq] at h
        · simp [runLoopE, ho, hq] at h
          rcases h with h | h
          · exact h
          · exact ih (i+1) _ _ n h

/-- The loop starts at most `fuel` cycles. -/
theorem runLoopE_countCycles_le {P : Type} (o : Oracle) :
    ∀ (fuel i : Nat) (mem file : Roadmap P),
      countCycles (runLoopE fuel i mem file o).1 ≤ fuel := by
  intro fuel
  induction fuel with
  | zero =>
    intro i mem file
    simp [runLoopE, countCycles]
  | succ n ih =>
    intro i mem file
    rcases ho : o i with ⟨x, y⟩
    rcases x with _ | a
    · simp [runLoopE, ho, countCycles]
    · rcases y with _ | b
      · simp [runLoopE, ho, countCycles]
      · by_cases hq : (ciclo_symbolic mem a b).open_questions.isEmpty
        · simp [runLoopE, ho, hq, countCycles]
        · have := ih (i+1) (ciclo_symbolic mem a b) (ciclo_symbolic mem a b)
          simp [runLoopE, ho, hq, countCycles, List.countP_cons] at this ⊢
          omega

/-- Between two consecutively numbered cycles of a loop trace there is a
`SLEEP_BETWEEN_CYCLES`-second sleep: the three events occur in order as a
subsequence of the trace. -/
theorem runLoopE_sleep_between {P : Type} (o : Oracle) :
    ∀ (fuel i : Nat) (mem file : Roadmap P) (j : Nat),
      Ev.cycle j ∈ (runLoopE fuel i mem file o).1 →
      Ev.cycle (j+1) ∈ (runLoopE fuel i mem file o).1 →
      List.Sublist [Ev.cycle j, Ev.sleep SLEEP_BETWEEN_CYCLES, Ev.cycle (j+1)]
        (runLoopE fuel i mem file o).1 := by
  intro fuel
  induction fuel with
  | zero =>
    intro i mem file j h1 h2
    simp [runLoopE] at h1
  | succ n ih =>
    intro i mem file j h1 h2
    have hge : i ≤ j := runLoopE_cycle_ge o (n+1) i mem file j h1
    rcases ho : o i with ⟨x, y⟩
    rcases x with _ | a
    · simp [runLoopE, ho] at h1 h2
      omega
    · rcases y with _ | b
      · simp [runLoopE, ho] at h1 h2
        omega
      · by_cases hq : (ciclo_symbolic mem a b).open_questions.isEmpty
        · simp [runLoopE, ho, hq] at h1 h2
          omega
        · have hnext : Ev.cycle (j+1) ∈
              (runLoopE n (i+1) (ciclo_symbolic mem a b) (ciclo_symbolic mem a b) o).1 := by
            simp [runLoopE, ho, hq] at h2
            rcases h2 with h2 | h2
            · omega
            · exact h2
          simp only [runLoopE, ho, hq] at h1 ⊢
          simp at h1 ⊢
          rcases h1 with h1 | h1
          · subst h1
            exact List.Sublist.cons₂ _ (List.Sublist.cons _
              (List.Sublist.cons₂ _ (List.singleton_sublist.mpr hnext)))
          · have hsub := ih (i+1) _ _ j h1 hnext
            exact List.Sublist.cons _ (List.Sublist.cons _
              (List.Sublist.cons _ hsub))

/-! Claims about the outer loop. -/

/-- Claim C3: the outer loop starts at most `CYCLES = 5` cycles; every sleep
between cycles is the fixed `SLEEP_BETWEEN_CYCLES = 2` seconds and one such
sleep separates any two consecutive cycles; and the first time a completed
cycle's extracted question sequence is empty the loop saves and stops — no
further cycle is started. -/
theorem claim_C3 : ∀ (P : Type) (o : Oracle),
    (∀ mem file : Roadmap P,
      countCycles (runLoopE CYCLES 0 mem file o).1 ≤ CYCLES) ∧
    (∀ (mem file : Roadmap P) (fuel i n : Nat),
      Ev.sleep n ∈ (runLoopE fuel i mem file o).1 →
      n = SLEEP_BETWEEN_CYCLES) ∧
    (∀ (mem file : Roadmap P) (fuel i j : Nat),
      Ev.cycle j ∈ (runLoopE fuel i mem file o).1 →
      Ev.cycle (j+1) ∈ (runLoopE fuel i mem file o).1 →
      List.Sublist [Ev.cycle j, Ev.sleep SLEEP_BETWEEN_CYCLES, Ev.cycle (j+1)]
        (runLoopE fuel i mem file o).1) ∧
    (∀ (mem file : Roadmap P) (fuel i : Nat) (a b : String),
      o i = (some a, some b) →
      (ciclo_symbolic mem a b).open_questions = [] →
      runLoopE (fuel+1) i mem file o =
        ([Ev.cycle i, Ev.save (ciclo_symbolic mem a b)],
          LoopOut.finished (ciclo_symbolic mem a b) (ciclo_symbolic mem a b))) := by
  intro P o
  refine ⟨fun mem file => runLoopE_countCycles_le o CYCLES 0 mem file,
    fun mem file fuel i n h => runLoopE_sleep_fixed o fuel i mem file n h,
    fun mem file fuel i j h1 h2 => runLoopE_sleep_between o fuel i mem file j h1 h2,
    ?_⟩
  intro mem file fuel i a b ho hq
  simp [runLoopE, ho, hq]

/-- Witness for C3 at a concrete run: the cycle bound, and a run whose first
cycle extracts no question and therefore stops after one cycle and one
save. -/
theorem claim_C3_witness :
    countCycles ((runLoopE CYCLES 0 (⟨[], [], [], none, none⟩ : Roadmap Unit)
        ⟨[], [], [], none, none⟩ (fun _ => (some ("Qed"), some ("")))).1) ≤ CYCLES ∧
    runLoopE (4+1) 0 (⟨[], [], [], none, none⟩ : Roadmap Unit)
        ⟨[], [], [], none, none⟩ (fun _ => (some ("Qed"), some (""))) =
      ([Ev.cycle 0,
        Ev.save (ciclo_symbolic (⟨[], [], [], none, none⟩ : Roadmap Unit) ("Qed") (""))],
        LoopOut.finished
          (ciclo_symbolic (⟨[], [], [], none, none⟩ : Roadmap Unit) ("Qed") (""))
          (ciclo_symbolic (⟨[], [], [], none, none⟩ : Roadmap Unit) ("Qed") (""))) := by
  constructor
  · exact (claim_C3 Unit (fun _ => (some ("Qed"), some ("")))).1 _ _
  · exact (claim_C3 Unit (fun _ => (some ("Qed"), some ("")))).2.2.2 _ _ 4 0
      ("Qed") ("") rfl (by decide)

/-- Claim C5: if either `ask_ollama` call of a cycle fails, the cycle aborts
immediately — the trace records only the cycle start, no save happens, and
both the in-memory roadmap and the durable file are exactly as they were
when the cycle started. -/
theorem claim_C5 : ∀ (P : Type) (mem file : Roadmap P) (o : Oracle) (fuel i : Nat),
    ((o i).1 = none ∨ (o i).2 = none) →
    runLoopE (fuel+1) i mem file o = ([Ev.cycle i], LoopOut.aborted i mem file) := by
  intro P mem file o fuel i h
  rcases ho : o i with ⟨x, y⟩
  rw [ho] at h
  rcases x with _ | a
  · simp [runLoopE, ho]
  · rcases y with _ | b
    · simp [runLoopE, ho]
    · simp at h

/-- Witness for C5: a concrete loop whose first generation call fails aborts
with the initial roadmap and file untouched. -/
theorem claim_C5_witness :
    runLoopE (0+1) 0 (⟨[], [], [], none, none⟩ : Roadmap Unit)
        ⟨[], [], [], none, none⟩ (fun _ => (none, some ("x"))) =
      ([Ev.cycle 0],
        LoopOut.aborted 0 ⟨[], [], [], none, none⟩ ⟨[], [], [], none, none⟩) :=
  claim_C5 Unit ⟨[], [], [], none, none⟩ ⟨[], [], [], none, none⟩
    (fun _ => (none, some ("x"))) 0 0 (Or.inl rfl)

end MiaSymbolic
